import Mathlib

/-!
Verification of the per-user payment/access state machine and admin
broadcast flow of the Telegram course-selling bot (src/main.py), as a
shallow embedding in Lean 4.

Modelling conventions:
* External effects (payment-gateway calls, invite creation, the outbound
  message edit, the database row read) are passed in as explicit oracle
  values (`Except String α` for fallible calls); the handler result
  records how many times each external service would have been contacted
  (`gatewayCalls`, `inviteCalls`).
* The persistence layer keeps one row per Telegram user; handlers take
  the row read for the pressing user (`Option UserRow`, `none` = no row
  or a timed-out read, which `safe_thread_call` maps to the `None`
  default) and return the row as left in the database, assuming the
  writes themselves succeed.
* Only reply texts are modelled, not inline keyboards.
* Python truthiness of optional strings is `truthy`; `str.strip` /
  `str.lower` and the regex class `\s` are modelled over the ASCII
  whitespace class.
-/

/-- Characters treated as whitespace by Python `str.strip()` and by the
regex class `\s` (ASCII fragment). -/
def isPySpace (c : Char) : Bool :=
  c = ' ' || c = '\t' || c = '\n' || c = '\r' || c = '\x0b' || c = '\x0c'

/-- Python `s.strip()` over the ASCII whitespace class. -/
def pyStrip (s : String) : String :=
  ⟨((s.data.dropWhile isPySpace).reverse.dropWhile isPySpace).reverse⟩

/-- Python `s.lower()` (ASCII fragment of the Unicode lowering). -/
def pyLower (s : String) : String :=
  ⟨s.data.map Char.toLower⟩

/-- Python truthiness of an optional string: `None` and `""` are falsy. -/
def truthy : Option String → Bool
  | none => false
  | some s => !s.isEmpty

/-- `html.escape(c, quote=False)` on a single character: only `&`, `<`,
`>` are replaced. -/
def escChar (c : Char) : List Char :=
  if c = '&' then "&amp;".data
  else if c = '<' then "&lt;".data
  else if c = '>' then "&gt;".data
  else [c]

/-- `html.escape(s, quote=False)` on the character list. -/
def eChars : List Char → List Char
  | [] => []
  | c :: rest => escChar c ++ eChars rest

/-- The helper `e` of src/main.py: escape for HTML parse mode
(`html.escape(s or "", quote=False)`). -/
def e (s : String) : String := ⟨eChars s.data⟩

/-- `listStarts n h` decides whether `n` is an initial segment of `h`. -/
def listStarts : List Char → List Char → Bool
  | [], _ => true
  | _ :: _, [] => false
  | a :: as, b :: bs => a = b && listStarts as bs

/-- `listHas n h` decides whether `n` occurs contiguously inside `h`. -/
def listHas (n : List Char) : List Char → Bool
  | [] => n.isEmpty
  | c :: rest => listStarts n (c :: rest) || listHas n rest

/-- `strContains hay needle`: the needle occurs verbatim in the haystack. -/
def strContains (hay needle : String) : Bool :=
  listHas needle.data hay.data

/-- Characters admitted by the regex atom `[^@\s]` of `EMAIL_RE`. -/
def okAtomChar (c : Char) : Bool :=
  !(c = '@') && !(isPySpace c)

/-- Whether the part after the `@` matches `[^@\s]+\.[^@\s]+` given that
all its characters already pass `okAtomChar`: there must be a literal
dot at an interior position (both sides non-empty). -/
def domainHasInteriorDot (b : List Char) : Bool :=
  ((b.drop 1).dropLast).contains '.'

/-- `EMAIL_RE.match` of src/main.py on the character list: the regex
`^[^@\s]+@[^@\s]+\.[^@\s]+$` matches a string exactly when it splits at
its (necessarily unique) `@` into a non-empty atom part and a tail that
is all atom characters and has a dot at an interior position. -/
def emailMatchChars (l : List Char) : Bool :=
  let a := l.takeWhile (fun c => !(c = '@'))
  let rest := l.dropWhile (fun c => !(c = '@'))
  match rest with
  | [] => false
  | _ :: b =>
    !a.isEmpty && a.all okAtomChar && b.all okAtomChar && domainHasInteriorDot b

/-- `EMAIL_RE` (line 324) applied with `.match` to an already-stripped
message text. -/
def emailMatch (s : String) : Bool :=
  emailMatchChars s.data

/-- One row of the `tg_users` table (the Account record of the spec). -/
structure UserRow where
  telegram_id : Int
  username : Option String := none
  started_at : Option String := none
  customer_email : Option String := none
  last_payment_id : Option String := none
  paid : Bool := false
  paid_at : Option String := none
  invite_link : Option String := none
deriving DecidableEq, Repr

/-- `db_upsert_started`: upsert of telegram_id, username, started_at;
all other columns of an existing row are untouched. -/
def db_upsert_started (now : String) (username : Option String) (r : UserRow) : UserRow :=
  { r with username := username, started_at := some now }

/-- `db_set_customer_email`: upsert of the customer_email column only. -/
def db_set_customer_email (email : String) (r : UserRow) : UserRow :=
  { r with customer_email := some email }

/-- `db_set_last_payment`: upsert of the last_payment_id column only. -/
def db_set_last_payment (payment_id : String) (r : UserRow) : UserRow :=
  { r with last_payment_id := some payment_id }

/-- `db_mark_paid` (lines 176-186): sets paid, paid_at and
last_payment_id; the invite_link key is put in the payload only when the
argument is truthy, so a `None` (or empty) argument leaves the stored
invite_link column untouched. -/
def db_mark_paid (now payment_id : String) (invite_link : Option String) (r : UserRow) : UserRow :=
  let base := { r with paid := true, paid_at := some now, last_payment_id := some payment_id }
  match invite_link with
  | some l => if l.isEmpty then base else { base with invite_link := some l }
  | none => base

/-- Upsert against a possibly-absent row: a missing row is created with
column defaults before the payload is merged. -/
def upsertRow (tid : Int) (f : UserRow → UserRow) (db : Option UserRow) : UserRow :=
  f (db.getD { telegram_id := tid })

/-- `yk_get_status` (lines 281-284): the raw gateway status field goes
through `str(status or "").lower().strip()`. -/
def yk_get_status (rawStatus : Option String) : String :=
  pyStrip (pyLower (rawStatus.getD ""))

/-! Reply texts. Each builder mirrors the literal string (or f-string)
of src/main.py; f-string interpolations become explicit concatenation. -/

def PAYMENTS_DISABLED_CAPTION : String :=
  "⛔️ <b>Оплата временно недоступна</b>\n\n" ++
  "Сейчас бот запущен в тестовом режиме — ЮKassa ещё не подключена.\n" ++
  "Доступ к курсу пока не выдаётся.\n\n" ++
  "Скоро включим оплату — и всё заработает автоматически."

def NEED_EMAIL_CAPTION : String :=
  "📧 <b>Нужен email для чека</b>\n\n" ++
  "Отправь, пожалуйста, свой email одним сообщением (пример: name@gmail.com)."

/-- on_pay, paid branch (lines 550-558): existing access, stored invite
link appended when truthy, else the contact-support notice. -/
def payPaidText (invite_link : Option String) : String :=
  let link := invite_link.getD ""
  "✅ <b>У тебя уже открыт доступ.</b>" ++
    (if link.isEmpty then "\n\nЕсли нужна ссылка — напиши в поддержку."
     else "\n\nВход в группу с курсом:\n" ++ e link)

/-- on_pay / on_text_for_email: payment-creation failure reply. -/
def payCreateFailText (ex : String) : String :=
  "❌ Не получилось создать платёж.\n\n" ++ e ex

/-- on_pay / on_text_for_email: the payment-created instructions. -/
def payCreatedText : String :=
  "💳 <b>Оплата курса</b>\n\n" ++
  "1) Нажми «Перейти к оплате» и оплати 1000₽.\n" ++
  "2) Вернись сюда и нажми «Проверить оплату».\n\n" ++
  "После успешной оплаты я дам ссылку на вход в группу (доступ навсегда)."

/-- on_check (lines 594-600): no created payment on file. -/
def checkNoPaymentText : String :=
  "Пока не вижу созданного платежа.\nНажми «Оплатить курс — 1000₽» и создай ссылку на оплату."

/-- on_check, paid branch (lines 602-610). -/
def checkPaidText (invite_link : Option String) : String :=
  let link := invite_link.getD ""
  "✅ <b>Доступ уже открыт.</b>" ++
    (if link.isEmpty then "\n\nЕсли нужна ссылка — напиши в поддержку."
     else "\n\nВход в группу:\n" ++ e link)

/-- on_check: gateway status query failed. -/
def checkQueryFailText (ex : String) : String :=
  "❌ Не получилось проверить платёж.\n\n" ++ e ex

/-- on_check, succeeded but invite creation failed (lines 629-639). -/
def inviteFailText (ex : String) : String :=
  "✅ Оплата прошла!\n\n" ++
  "Но я не смог создать инвайт-ссылку автоматически.\n" ++
  "Напиши в поддержку — вручную дадим доступ.\n\n" ++ e ex

/-- on_check, succeeded with an invite link (lines 643-649). -/
def checkSuccessText (invite_link : String) : String :=
  "✅ <b>Оплата прошла!</b>\n\n" ++
  "Вот вход в группу с курсом (доступ навсегда):\n" ++ e invite_link

/-- on_check, pending / waiting_for_capture branch (lines 652-659). -/
def checkPendingText : String :=
  "⏳ Платёж ещё не завершён.\n" ++
  "Если ты уже оплатил(а), подожди 10–30 секунд и нажми «Проверить оплату» ещё раз."

/-- on_check, canceled branch (lines 661-667). -/
def checkCanceledText : String :=
  "❌ Платёж отменён.\nНажми «Оплатить курс — 1000₽», чтобы создать новую ссылку."

/-- on_check, unrecognized status (lines 669-673): the status is
HTML-escaped into the f-string. -/
def checkUnknownStatusText (status : String) : String :=
  "Статус платежа: " ++ e status ++ "\nЕсли уверен(а), что оплатил(а), напиши в поддержку."

def emailRejectText : String :=
  "❌ Это не похоже на email. Пришли в формате name@example.com"

/-! Handlers. -/

/-- Result of the `on_pay` callback handler. -/
structure PayResult where
  reply : String
  row' : Option UserRow
  awaitingEmail : Bool
  gatewayCalls : Nat
deriving DecidableEq, Repr

/-- `on_pay` (lines 539-580). `row` is the `db_get_user` read for the
pressing user; `ykCreate` is the outcome of `yk_create_payment`
(payment id and confirmation URL, or the exception text, a timeout
included); `awaitingEmail` is the session flag
`awaiting_email_for_payment` before the press. -/
def on_pay (paymentsEnabled : Bool) (tid : Int)
    (ykCreate : Except String (String × String))
    (row : Option UserRow) (awaitingEmail : Bool) : PayResult :=
  if !paymentsEnabled then
    { reply := PAYMENTS_DISABLED_CAPTION, row' := row,
      awaitingEmail := awaitingEmail, gatewayCalls := 0 }
  else
    let paidRow := match row with
      | some r => r.paid
      | none => false
    if paidRow then
      { reply := payPaidText ((row.getD { telegram_id := tid }).invite_link),
        row' := row, awaitingEmail := awaitingEmail, gatewayCalls := 0 }
    else
      let customer_email := match row with
        | some r => r.customer_email
        | none => none
      if !truthy customer_email then
        { reply := NEED_EMAIL_CAPTION, row' := row,
          awaitingEmail := true, gatewayCalls := 0 }
      else
        match ykCreate with
        | .error ex =>
          { reply := payCreateFailText ex, row' := row,
            awaitingEmail := awaitingEmail, gatewayCalls := 1 }
        | .ok (payment_id, _pay_url) =>
          { reply := payCreatedText,
            row' := some (upsertRow tid (db_set_last_payment payment_id) row),
            awaitingEmail := awaitingEmail, gatewayCalls := 1 }

/-- Result of the `on_check` callback handler. -/
structure CheckResult where
  reply : String
  row' : Option UserRow
  gatewayCalls : Nat
  inviteCalls : Nat
deriving DecidableEq, Repr

/-- `on_check` (lines 583-673). `ykStatus` is the outcome of
`yk_get_status(payment_id)` (the normalized status string, or the
exception text); `invite` is the outcome of
`create_chat_invite_link` (the invite link, or the exception text);
`now` is the timestamp `db_mark_paid` would store. -/
def on_check (paymentsEnabled : Bool) (tid : Int) (now : String)
    (ykStatus : Except String String) (invite : Except String String)
    (row : Option UserRow) : CheckResult :=
  if !paymentsEnabled then
    { reply := PAYMENTS_DISABLED_CAPTION, row' := row, gatewayCalls := 0, inviteCalls := 0 }
  else
    match row with
    | none =>
      { reply := checkNoPaymentText, row' := row, gatewayCalls := 0, inviteCalls := 0 }
    | some r =>
      if !truthy r.last_payment_id then
        { reply := checkNoPaymentText, row' := row, gatewayCalls := 0, inviteCalls := 0 }
      else if r.paid then
        { reply := checkPaidText r.invite_link, row' := row,
          gatewayCalls := 0, inviteCalls := 0 }
      else
        let payment_id := r.last_payment_id.getD ""
        match ykStatus with
        | .error ex =>
          { reply := checkQueryFailText ex, row' := row,
            gatewayCalls := 1, inviteCalls := 0 }
        | .ok status =>
          if status = "succeeded" then
            match invite with
            | .error ex =>
              { reply := inviteFailText ex,
                row' := some (upsertRow tid (db_mark_paid now payment_id none) row),
                gatewayCalls := 1, inviteCalls := 1 }
            | .ok invite_link =>
              { reply := checkSuccessText invite_link,
                row' := some (upsertRow tid (db_mark_paid now payment_id (some invite_link)) row),
                gatewayCalls := 1, inviteCalls := 1 }
          else if status = "pending" ∨ status = "waiting_for_capture" then
            { reply := checkPendingText, row' := row, gatewayCalls := 1, inviteCalls := 0 }
          else if status = "canceled" then
            { reply := checkCanceledText, row' := row, gatewayCalls := 1, inviteCalls := 0 }
          else
            { reply := checkUnknownStatusText status, row' := row,
              gatewayCalls := 1, inviteCalls := 0 }

/-- Result of the `on_text_for_email` message handler. -/
structure EmailResult where
  reply : Option String
  row' : Option UserRow
  awaitingEmail : Bool
  gatewayCalls : Nat
deriving DecidableEq, Repr

/-- `on_text_for_email` (lines 677-709). `text` is the raw message
text; the handler strips it, validates against `EMAIL_RE`, and on
acceptance clears the session flag, persists the email and proceeds to
payment creation. -/
def on_text_for_email (paymentsEnabled : Bool) (tid : Int)
    (ykCreate : Except String (String × String))
    (row : Option UserRow) (awaitingEmail : Bool) (text : String) : EmailResult :=
  if !awaitingEmail then
    { reply := none, row' := row, awaitingEmail := awaitingEmail, gatewayCalls := 0 }
  else
    let email := pyStrip text
    if !emailMatch email then
      { reply := some emailRejectText, row' := row, awaitingEmail := true, gatewayCalls := 0 }
    else
      let row1 := some (upsertRow tid (db_set_customer_email email) row)
      if !paymentsEnabled then
        { reply := some PAYMENTS_DISABLED_CAPTION, row' := row1,
          awaitingEmail := false, gatewayCalls := 0 }
      else
        match ykCreate with
        | .error ex =>
          { reply := some (payCreateFailText ex), row' := row1,
            awaitingEmail := false, gatewayCalls := 1 }
        | .ok (payment_id, _pay_url) =>
          { reply := some payCreatedText,
            row' := some (upsertRow tid (db_set_last_payment payment_id) row1),
            awaitingEmail := false, gatewayCalls := 1 }

/-! Admin broadcast flow. -/

/-- `is_admin` (line 75) over the parsed admin-id set, modelled as the
list parsed from the ADMIN_TELEGRAM_ID environment variable. -/
def is_admin (adminIds : List Int) (uid : Int) : Bool :=
  adminIds.contains uid

/-- Conversation states of the broadcast ConversationHandler. -/
def BCAST_CHOOSE_AUDIENCE : Nat := 0
def BCAST_ENTER_TEXT : Nat := 1
def BCAST_CONFIRM : Nat := 2

/-- Per-user conversation session (`context.user_data` keys used by the
broadcast flow). -/
structure BcastSession where
  bcastPaid : Option Bool := none
  bcastText : Option String := none
deriving DecidableEq, Repr

/-- Result of one broadcast-conversation step: the reply text (if the
handler edited / sent a message), the next conversation state
(`none` = `ConversationHandler.END`), and the session afterwards. -/
structure StepResult where
  reply : Option String
  nextState : Option Nat
  session : BcastSession
deriving DecidableEq, Repr

def bcastMenuText : String := "📣 <b>Рассылка</b>\n\nКому отправляем?"

def bcastAskText : String := "✍️ Пришли текст рассылки одним сообщением."

def accessDeniedText : String := "⛔️ Нет доступа."

/-- `on_admin_broadcast_menu` (lines 718-727). -/
def on_admin_broadcast_menu (adminIds : List Int) (uid : Int)
    (sess : BcastSession) : StepResult :=
  if !(is_admin adminIds uid) then
    { reply := some accessDeniedText, nextState := none, session := sess }
  else
    { reply := some bcastMenuText, nextState := some BCAST_CHOOSE_AUDIENCE, session := sess }

/-- `on_broadcast_choose_paid` (lines 730-738): a non-admin is ended
with no reply at all. -/
def on_broadcast_choose_paid (adminIds : List Int) (uid : Int)
    (sess : BcastSession) : StepResult :=
  if !(is_admin adminIds uid) then
    { reply := none, nextState := none, session := sess }
  else
    { reply := some bcastAskText, nextState := some BCAST_ENTER_TEXT,
      session := { sess with bcastPaid := some true } }

/-- `on_broadcast_choose_unpaid` (lines 741-749). -/
def on_broadcast_choose_unpaid (adminIds : List Int) (uid : Int)
    (sess : BcastSession) : StepResult :=
  if !(is_admin adminIds uid) then
    { reply := none, nextState := none, session := sess }
  else
    { reply := some bcastAskText, nextState := some BCAST_ENTER_TEXT,
      session := { sess with bcastPaid := some false } }

/-- The confirmation preview of `on_broadcast_text`. -/
def bcastPreviewText (paid : Bool) (text : String) : String :=
  let audience := if paid then "✅ оплатившим" else "❌ не оплатившим"
  "📣 <b>Подтверждение рассылки</b>\n\n" ++
  "Кому: <b>" ++ audience ++ "</b>\n\n" ++
  "Текст:\n\n" ++ text ++ "\n\n" ++
  "Отправить?"

/-- `on_broadcast_text` (lines 763-789). -/
def on_broadcast_text (adminIds : List Int) (uid : Int)
    (sess : BcastSession) (text : String) : StepResult :=
  if !(is_admin adminIds uid) then
    { reply := none, nextState := none, session := sess }
  else
    let t := pyStrip text
    if t.isEmpty then
      { reply := some "Пришли текст одним сообщением.",
        nextState := some BCAST_ENTER_TEXT, session := sess }
    else
      { reply := some (bcastPreviewText (sess.bcastPaid.getD false) t),
        nextState := some BCAST_CONFIRM,
        session := { sess with bcastText := some t } }

/-- One iteration of the send loop of `on_broadcast_send` (lines
812-824): a successful send increments `sent`, a failed one `failed`,
and either way the loop moves on. The third component is
instrumentation: the sequence of recipients attempted, in order. -/
def bcastStep (send : Int → Bool) (acc : Nat × Nat × List Int) (uid : Int) :
    Nat × Nat × List Int :=
  if send uid then (acc.1 + 1, acc.2.1, acc.2.2 ++ [uid])
  else (acc.1, acc.2.1 + 1, acc.2.2 ++ [uid])

/-- The send loop over the audience snapshot, starting from
`sent = 0, failed = 0`. -/
def bcastLoop (send : Int → Bool) (ids : List Int) : Nat × Nat × List Int :=
  ids.foldl (bcastStep send) (0, 0, [])

/-- The final summary of `on_broadcast_send` (lines 826-831). -/
def bcastSummaryText (total sent failed : Nat) : String :=
  "✅ <b>Рассылка завершена</b>\n\n" ++
  "Получателей: <b>" ++ toString total ++ "</b>\n" ++
  "Отправлено: <b>" ++ toString sent ++ "</b>\n" ++
  "Ошибок: <b>" ++ toString failed ++ "</b>"

/-- Result of `on_broadcast_send`: final reply (the progress message
sent before the loop is not modelled), counters, attempted recipients,
next conversation state and session afterwards. -/
structure BcastSendResult where
  reply : Option String
  total : Nat
  sent : Nat
  failed : Nat
  attempted : List Int
  nextState : Option Nat
  session : BcastSession
deriving DecidableEq, Repr

/-- `on_broadcast_send` (lines 792-836). `paidIds` / `unpaidIds` are
the audience snapshots the two db listing functions would return
(`safe_thread_call` default `[]` on failure); `send` is the
per-recipient outcome of `bot.send_message` under its timeout. -/
def on_broadcast_send (adminIds : List Int) (uid : Int) (sess : BcastSession)
    (paidIds unpaidIds : List Int) (send : Int → Bool) : BcastSendResult :=
  if !(is_admin adminIds uid) then
    { reply := none, total := 0, sent := 0, failed := 0, attempted := [],
      nextState := none, session := sess }
  else
    let paid := sess.bcastPaid.getD false
    let text := sess.bcastText.getD ""
    if text.isEmpty then
      { reply := some "Текст рассылки не найден. Начни заново.",
        total := 0, sent := 0, failed := 0, attempted := [],
        nextState := none, session := sess }
    else
      let ids := if paid then paidIds else unpaidIds
      let r := bcastLoop send ids
      { reply := some (bcastSummaryText ids.length r.1 r.2.1),
        total := ids.length, sent := r.1, failed := r.2.1, attempted := r.2.2,
        nextState := none, session := {} }

/-! Webhook endpoint. -/

/-- `telegram_webhook` (lines 955-960): `request.json()`,
`Update.de_json` and `process_update` run with no local exception
handling; any raised exception propagates out of the endpoint
(`Except.error`), and only the all-successful path reaches
`Response(status_code=200)`. -/
def telegram_webhook {J U : Type} (requestJson : Except String J)
    (deJson : J → Except String U) (processUpdate : U → Except String Unit) :
    Except String Nat :=
  match requestJson with
  | .error ex => .error ex
  | .ok data =>
    match deJson data with
    | .error ex => .error ex
    | .ok upd =>
      match processUpdate upd with
      | .error ex => .error ex
      | .ok _ => .ok 200

/-- The HTTP status the framework sends for an endpoint outcome: an
exception that escapes the endpoint is turned into a 500 Internal
Server Error by FastAPI, never a 200. -/
def httpStatus (r : Except String Nat) : Nat :=
  match r with
  | .ok s => s
  | .error _ => 500

/-! Unpaid-audience listing. -/

/-- A database cell value as handed back in a result row. -/
inductive DbVal
  | vInt (n : Int)
  | vStr (s : String)
  | vNull
deriving DecidableEq, Repr

/-- Python `int()` on a non-empty list of characters: all must be
decimal digits. -/
def pyNatOfChars : List Char → Option Nat
  | [] => none
  | cs =>
    if cs.all Char.isDigit then
      some (cs.foldl (fun acc c => acc * 10 + (c.toNat - 48)) 0)
    else none

/-- Python `int(s)` on a string: surrounding whitespace is allowed, an
optional sign, then decimal digits; anything else raises ValueError
(`none`). -/
def pyIntOfStr (s : String) : Option Int :=
  match (pyStrip s).data with
  | '-' :: rest => (pyNatOfChars rest).map (fun v => -(v : Int))
  | '+' :: rest => (pyNatOfChars rest).map (fun v => (v : Int))
  | l => (pyNatOfChars l).map (fun v => (v : Int))

/-- Python `int(x)` on a cell value, `none` when it raises: `None`
raises TypeError, a non-numeric string raises ValueError. -/
def pyIntOfVal : DbVal → Option Int
  | .vInt n => some n
  | .vStr s => pyIntOfStr s
  | .vNull => none

/-- A query result: `data` may be null (`res.data or []`). Each row
carries the value of its `telegram_id` column (`r.get("telegram_id")`,
`.vNull` covering both SQL null and a missing key). -/
structure QueryRes where
  data : Option (List DbVal)
deriving DecidableEq, Repr

/-- The accumulation loop shared by `db_list_paid_user_ids` and
`db_list_unpaid_user_ids` (lines 227-233): `out.append(int(...))`
guarded by `try`, a row whose id does not parse is skipped. -/
def collectIds (rows : List DbVal) : List Int :=
  rows.foldl (fun out v =>
    match pyIntOfVal v with
    | some n => out ++ [n]
    | none => out) []

/-- `db_list_unpaid_user_ids` (lines 213-233): the filtered
`or_("paid.is.null,paid.eq.false")` query is tried first; if it raises,
the fallback selects `telegram_id` of every row of the table. -/
def db_list_unpaid_user_ids (filteredQuery : Except String QueryRes)
    (allQuery : QueryRes) : List Int :=
  let res := match filteredQuery with
    | .ok r => r
    | .error _ => allQuery
  collectIds (res.data.getD [])

/-! Helper lemmas. -/

theorem listStarts_self_append (n t : List Char) : listStarts n (n ++ t) = true := by
  induction n with
  | nil => simp [listStarts]
  | cons a as ih => simp [listStarts, ih]

theorem listHas_of_append (a n t : List Char) : listHas n (a ++ n ++ t) = true := by
  induction a with
  | nil =>
    cases hn : n with
    | nil =>
      cases t <;> simp [listHas, listStarts]
    | cons c cs =>
      simp only [List.nil_append, List.cons_append, listHas]
      have : listStarts (c :: cs) (c :: (cs ++ t)) = true := by
        simpa using listStarts_self_append (c :: cs) t
      simp [this]
  | cons x xs ih =>
    simp only [List.cons_append, listHas, List.append_eq, ih, Bool.or_true]

theorem strContains_mid (x s y : String) : strContains (x ++ s ++ y) s = true := by
  unfold strContains
  rw [String.data_append, String.data_append]
  exact listHas_of_append x.data s.data y.data

theorem strne_of_left (a b : String) (h : a ≠ "") : a ++ b ≠ "" := by
  intro hc
  apply h
  rw [String.ext_iff] at hc ⊢
  rw [String.data_append] at hc
  rcases List.append_eq_nil.mp hc with ⟨h1, _⟩
  exact h1

theorem eChars_id (l : List Char) (h : ∀ c ∈ l, c ≠ '&' ∧ c ≠ '<' ∧ c ≠ '>') :
    eChars l = l := by
  induction l with
  | nil => rfl
  | cons c r ih =>
    have hc := h c (by simp)
    have hr := ih fun x hx => h x (by simp [hx])
    simp [eChars, escChar, hc.1, hc.2.1, hc.2.2, hr]

theorem e_id (s : String) (h : ∀ c ∈ s.data, c ≠ '&' ∧ c ≠ '<' ∧ c ≠ '>') :
    e s = s := by
  unfold e
  rw [eChars_id s.data h]

theorem countP_add_countP_not (p : Int → Bool) (l : List Int) :
    l.countP p + l.countP (fun a => !p a) = l.length := by
  induction l with
  | nil => simp
  | cons a r ih =>
    cases h : p a <;> simp [List.countP_cons, h] <;> omega

theorem bcastLoop_go (send : Int → Bool) (ids : List Int) (s f : Nat) (tr : List Int) :
    List.foldl (bcastStep send) (s, f, tr) ids =
      (s + ids.countP (fun u => send u),
       f + ids.countP (fun u => !send u),
       tr ++ ids) := by
  induction ids generalizing s f tr with
  | nil => simp
  | cons u rest ih =>
    cases h : send u <;>
      simp [List.foldl, bcastStep, h, ih, List.countP_cons] <;>
      omega

theorem bcastLoop_eq (send : Int → Bool) (ids : List Int) :
    bcastLoop send ids =
      (ids.countP (fun u => send u), ids.countP (fun u => !send u), ids) := by
  unfold bcastLoop
  simpa using bcastLoop_go send ids 0 0 []

theorem collectIds_go (rows : List DbVal) (acc : List Int) :
    List.foldl (fun out v =>
      match pyIntOfVal v with
      | some n => out ++ [n]
      | none => out) acc rows = acc ++ rows.filterMap pyIntOfVal := by
  induction rows generalizing acc with
  | nil => simp
  | cons v rest ih =>
    cases h : pyIntOfVal v <;> simp [List.foldl, h, ih, List.filterMap_cons]

theorem collectIds_eq (rows : List DbVal) :
    collectIds rows = rows.filterMap pyIntOfVal := by
  unfold collectIds
  simpa using collectIds_go rows []

theorem payments_disabled_ne : PAYMENTS_DISABLED_CAPTION ≠ "" := by decide

theorem checkNoPaymentText_ne : checkNoPaymentText ≠ "" := by decide

theorem checkPaidText_ne (l : Option String) : checkPaidText l ≠ "" := by
  unfold checkPaidText
  exact strne_of_left _ _ (by decide)

theorem checkQueryFailText_ne (ex : String) : checkQueryFailText ex ≠ "" := by
  unfold checkQueryFailText
  exact strne_of_left _ _ (by decide)

theorem inviteFailText_ne (ex : String) : inviteFailText ex ≠ "" := by
  unfold inviteFailText
  exact strne_of_left _ _ (strne_of_left _ _ (strne_of_left _ _ (by decide)))

theorem checkSuccessText_ne (l : String) : checkSuccessText l ≠ "" := by
  unfold checkSuccessText
  exact strne_of_left _ _ (strne_of_left _ _ (by decide))

theorem checkPendingText_ne : checkPendingText ≠ "" := by decide

theorem checkCanceledText_ne : checkCanceledText ≠ "" := by decide

theorem checkUnknownStatusText_ne (status : String) : checkUnknownStatusText status ≠ "" := by
  unfold checkUnknownStatusText
  exact strne_of_left _ _ (strne_of_left _ _ (by decide))

/-! Claim theorems. -/

/-- C1: for an account whose stored record has paid true (and, per the
data-model invariant of the spec, a last_payment_id on file), a "pay"
press and a "check" press both short-circuit under enabled payments:
the reply is built from the already-stored invite link (the
contact-support variant when none is stored), the stored row is left
unchanged, and neither payment creation nor status query is issued. -/
theorem c1_paid_short_circuits
    (tid : Int) (now : String)
    (ykCreate : Except String (String × String))
    (ykStatus invite : Except String String)
    (r : UserRow) (awaiting : Bool)
    (hpaid : r.paid = true)
    (hpid : truthy r.last_payment_id = true) :
    (on_pay true tid ykCreate (some r) awaiting).gatewayCalls = 0 ∧
    (on_pay true tid ykCreate (some r) awaiting).reply = payPaidText r.invite_link ∧
    (on_pay true tid ykCreate (some r) awaiting).row' = some r ∧
    (on_check true tid now ykStatus invite (some r)).gatewayCalls = 0 ∧
    (on_check true tid now ykStatus invite (some r)).inviteCalls = 0 ∧
    (on_check true tid now ykStatus invite (some r)).reply = checkPaidText r.invite_link ∧
    (on_check true tid now ykStatus invite (some r)).row' = some r := by
  simp [on_pay, on_check, hpaid, hpid]

/-- C1 witness: a concrete paid record with a stored invite link. -/
theorem c1_paid_short_circuits_witness :
    ({ telegram_id := 1, last_payment_id := some "p1", paid := true, invite_link := some "LINK" : UserRow }).paid = true ∧
    truthy ({ telegram_id := 1, last_payment_id := some "p1", paid := true, invite_link := some "LINK" : UserRow }).last_payment_id = true ∧
    ((on_pay true 1 (.ok ("p2", "u")) (some { telegram_id := 1, last_payment_id := some "p1", paid := true, invite_link := some "LINK" }) false).gatewayCalls = 0 ∧
     (on_pay true 1 (.ok ("p2", "u")) (some { telegram_id := 1, last_payment_id := some "p1", paid := true, invite_link := some "LINK" }) false).reply = payPaidText (some "LINK") ∧
     (on_pay true 1 (.ok ("p2", "u")) (some { telegram_id := 1, last_payment_id := some "p1", paid := true, invite_link := some "LINK" }) false).row' = some { telegram_id := 1, last_payment_id := some "p1", paid := true, invite_link := some "LINK" } ∧
     (on_check true 1 "t" (.ok "succeeded") (.ok "L") (some { telegram_id := 1, last_payment_id := some "p1", paid := true, invite_link := some "LINK" })).gatewayCalls = 0 ∧
     (on_check true 1 "t" (.ok "succeeded") (.ok "L") (some { telegram_id := 1, last_payment_id := some "p1", paid := true, invite_link := some "LINK" })).inviteCalls = 0 ∧
     (on_check true 1 "t" (.ok "succeeded") (.ok "L") (some { telegram_id := 1, last_payment_id := some "p1", paid := true, invite_link := some "LINK" })).reply = checkPaidText (some "LINK") ∧
     (on_check true 1 "t" (.ok "succeeded") (.ok "L") (some { telegram_id := 1, last_payment_id := some "p1", paid := true, invite_link := some "LINK" })).row' = some { telegram_id := 1, last_payment_id := some "p1", paid := true, invite_link := some "LINK" }) :=
  ⟨by decide, by decide,
   c1_paid_short_circuits 1 "t" (.ok ("p2", "u")) (.ok "succeeded") (.ok "L") { telegram_id := 1, last_payment_id := some "p1", paid := true, invite_link := some "LINK" } false (by decide) (by decide)⟩

/-- C2: a stored invite_link is never overwritten: db_mark_paid called
with a `None` invite link leaves the column untouched, the three other
row-writing operations do not mention the column at all, and on_check
for a record already marked paid performs no invite creation and leaves
the row exactly as read. -/
theorem c2_invite_link_never_overwritten
    (now pid pid2 email : String) (username : Option String)
    (pe : Bool) (tid : Int) (ykStatus invite : Except String String)
    (r : UserRow) :
    (db_mark_paid now pid none r).invite_link = r.invite_link ∧
    (db_upsert_started now username r).invite_link = r.invite_link ∧
    (db_set_customer_email email r).invite_link = r.invite_link ∧
    (db_set_last_payment pid2 r).invite_link = r.invite_link ∧
    (r.paid = true →
      (on_check pe tid now ykStatus invite (some r)).inviteCalls = 0 ∧
      (on_check pe tid now ykStatus invite (some r)).row' = some r) := by
  refine ⟨rfl, rfl, rfl, rfl, fun hpaid => ?_⟩
  cases pe
  · simp [on_check]
  · by_cases hp : truthy r.last_payment_id = true <;>
      simp [on_check, hp, hpaid]

/-- C2 witness: a concrete paid record with a stored invite link. -/
theorem c2_invite_link_never_overwritten_witness :
    ((db_mark_paid "n" "p" none { telegram_id := 2, paid := true, invite_link := some "LINK" }).invite_link = ({ telegram_id := 2, paid := true, invite_link := some "LINK" : UserRow }).invite_link) ∧
    ({ telegram_id := 2, paid := true, invite_link := some "LINK" : UserRow }).paid = true ∧
    (on_check true 2 "n" (.ok "succeeded") (.ok "L") (some { telegram_id := 2, paid := true, invite_link := some "LINK" })).inviteCalls = 0 ∧
    (on_check true 2 "n" (.ok "succeeded") (.ok "L") (some { telegram_id := 2, paid := true, invite_link := some "LINK" })).row' = some { telegram_id := 2, paid := true, invite_link := some "LINK" } := by
  have h := c2_invite_link_never_overwritten "n" "p" "q" "m" none true 2 (.ok "succeeded") (.ok "L") { telegram_id := 2, paid := true, invite_link := some "LINK" }
  exact ⟨h.1, by decide, (h.2.2.2.2 (by decide)).1, (h.2.2.2.2 (by decide)).2⟩

/-- C3: status succeeded with a failing invite creation still marks the
account paid — paid, paid_at and last_payment_id are persisted by
db_mark_paid with no invite_link in the payload — and the user is told
to contact support; exactly one invite-creation attempt is made. -/
theorem c3_invite_failure_still_marks_paid
    (tid : Int) (now ex : String) (r : UserRow)
    (hnp : r.paid = false)
    (hpid : truthy r.last_payment_id = true) :
    (on_check true tid now (.ok "succeeded") (.error ex) (some r)).row' =
      some (db_mark_paid now (r.last_payment_id.getD "") none r) ∧
    (db_mark_paid now (r.last_payment_id.getD "") none r).paid = true ∧
    (db_mark_paid now (r.last_payment_id.getD "") none r).paid_at = some now ∧
    (db_mark_paid now (r.last_payment_id.getD "") none r).last_payment_id =
      some (r.last_payment_id.getD "") ∧
    (db_mark_paid now (r.last_payment_id.getD "") none r).invite_link = r.invite_link ∧
    (on_check true tid now (.ok "succeeded") (.error ex) (some r)).reply = inviteFailText ex ∧
    (on_check true tid now (.ok "succeeded") (.error ex) (some r)).inviteCalls = 1 := by
  simp [on_check, hnp, hpid, upsertRow, db_mark_paid]

/-- C3 witness: a concrete unpaid record with a created payment. -/
theorem c3_invite_failure_still_marks_paid_witness :
    ({ telegram_id := 3, customer_email := some "a@b.co", last_payment_id := some "p9" : UserRow }).paid = false ∧
    truthy ({ telegram_id := 3, customer_email := some "a@b.co", last_payment_id := some "p9" : UserRow }).last_payment_id = true ∧
    ((on_check true 3 "now" (.ok "succeeded") (.error "Timeout") (some { telegram_id := 3, customer_email := some "a@b.co", last_payment_id := some "p9" })).row' = some (db_mark_paid "now" "p9" none { telegram_id := 3, customer_email := some "a@b.co", last_payment_id := some "p9" }) ∧
     (db_mark_paid "now" "p9" none { telegram_id := 3, customer_email := some "a@b.co", last_payment_id := some "p9" }).paid = true ∧
     (db_mark_paid "now" "p9" none { telegram_id := 3, customer_email := some "a@b.co", last_payment_id := some "p9" }).paid_at = some "now" ∧
     (db_mark_paid "now" "p9" none { telegram_id := 3, customer_email := some "a@b.co", last_payment_id := some "p9" }).last_payment_id = some "p9" ∧
     (db_mark_paid "now" "p9" none { telegram_id := 3, customer_email := some "a@b.co", last_payment_id := some "p9" }).invite_link = ({ telegram_id := 3, customer_email := some "a@b.co", last_payment_id := some "p9" : UserRow }).invite_link ∧
     (on_check true 3 "now" (.ok "succeeded") (.error "Timeout") (some { telegram_id := 3, customer_email := some "a@b.co", last_payment_id := some "p9" })).reply = inviteFailText "Timeout" ∧
     (on_check true 3 "now" (.ok "succeeded") (.error "Timeout") (some { telegram_id := 3, customer_email := some "a@b.co", last_payment_id := some "p9" })).inviteCalls = 1) :=
  ⟨by decide, by decide,
   c3_invite_failure_still_marks_paid 3 "now" "Timeout" { telegram_id := 3, customer_email := some "a@b.co", last_payment_id := some "p9" } (by decide) (by decide)⟩

/-- C4 counterexample: the claim says an unrecognized status is echoed
verbatim, but the reply interpolates `e(status)` (HTML escape). A
status containing `<`/`>` — reachable, since `yk_get_status` only
lowercases and strips — is therefore not contained verbatim in the
reply. -/
theorem c4_status_verbatim_counterexample :
    yk_get_status (some " <B> ") = "<b>" ∧
    (on_check true 5 "t0" (.ok "<b>") (.ok "L") (some { telegram_id := 5, last_payment_id := some "pay1" })).reply = checkUnknownStatusText "<b>" ∧
    strContains (on_check true 5 "t0" (.ok "<b>") (.ok "L") (some { telegram_id := 5, last_payment_id := some "pay1" })).reply "<b>" = false :=
  ⟨by decide, by decide, by decide⟩

/-- C4 (amended): the status dispatch of on_check is total — every
handler outcome carries a non-empty reply — and an unrecognized status
yields the status-surfacing reply with no row transition; the status
appears in that reply HTML-escaped, hence verbatim exactly when it
contains none of the escaped characters. -/
theorem c4_status_totality_amended
    (pe : Bool) (tid tid2 : Int) (now now2 status : String)
    (ykStatus invite invite2 : Except String String) (row : Option UserRow)
    (r : UserRow)
    (hnp : r.paid = false) (hpid : truthy r.last_payment_id = true)
    (hunk : status ∉ (["succeeded", "pending", "waiting_for_capture", "canceled"] : List String)) :
    (on_check pe tid2 now2 ykStatus invite2 row).reply ≠ "" ∧
    (on_check true tid now (.ok status) invite (some r)).reply = checkUnknownStatusText status ∧
    (on_check true tid now (.ok status) invite (some r)).row' = some r ∧
    ((∀ c ∈ status.data, c ≠ '&' ∧ c ≠ '<' ∧ c ≠ '>') →
      strContains (checkUnknownStatusText status) status = true) := by
  simp only [List.mem_cons, List.mem_singleton, not_or] at hunk
  refine ⟨?_, ?_, ?_, ?_⟩
  · unfold on_check
    repeat' split
    all_goals
      first
        | exact payments_disabled_ne
        | exact checkNoPaymentText_ne
        | exact checkPaidText_ne _
        | exact checkQueryFailText_ne _
        | exact inviteFailText_ne _
        | exact checkSuccessText_ne _
        | exact checkPendingText_ne
        | exact checkCanceledText_ne
        | exact checkUnknownStatusText_ne _
  · simp [on_check, hnp, hpid, hunk.1, hunk.2.1, hunk.2.2.1, hunk.2.2.2]
  · simp [on_check, hnp, hpid, hunk.1, hunk.2.1, hunk.2.2.1, hunk.2.2.2]
  · intro hplain
    have he : e status = status := e_id status hplain
    unfold checkUnknownStatusText
    rw [he]
    exact strContains_mid "Статус платежа: " status "\nЕсли уверен(а), что оплатил(а), напиши в поддержку."

/-- C4 witness: a concrete unrecognized, escape-free status. -/
theorem c4_status_totality_amended_witness :
    ({ telegram_id := 5, last_payment_id := some "pay1" : UserRow }).paid = false ∧
    truthy ({ telegram_id := 5, last_payment_id := some "pay1" : UserRow }).last_payment_id = true ∧
    "refund_requested" ∉ (["succeeded", "pending", "waiting_for_capture", "canceled"] : List String) ∧
    ((on_check true 5 "t0" (.ok "pending") (.ok "L") (some { telegram_id := 5, last_payment_id := some "pay1" })).reply ≠ "" ∧
     (on_check true 5 "t0" (.ok "refund_requested") (.ok "L") (some { telegram_id := 5, last_payment_id := some "pay1" })).reply = checkUnknownStatusText "refund_requested" ∧
     (on_check true 5 "t0" (.ok "refund_requested") (.ok "L") (some { telegram_id := 5, last_payment_id := some "pay1" })).row' = some { telegram_id := 5, last_payment_id := some "pay1" } ∧
     ((∀ c ∈ "refund_requested".data, c ≠ '&' ∧ c ≠ '<' ∧ c ≠ '>') →
       strContains (checkUnknownStatusText "refund_requested") "refund_requested" = true)) :=
  ⟨by decide, by decide, by decide,
   c4_status_totality_amended true 5 5 "t0" "t0" "refund_requested" (.ok "pending") (.ok "L")
     (.ok "L") (some { telegram_id := 5, last_payment_id := some "pay1" })
     { telegram_id := 5, last_payment_id := some "pay1" } (by decide) (by decide) (by decide)⟩

/-- C5: while the session awaits an email, a message whose stripped
text matches EMAIL_RE is accepted — the awaiting flag is cleared and
the email is persisted on the stored row — and a non-matching text is
rejected with the re-prompt, the flag staying set and the row
untouched; "a@b.co" matches and "not-an-email" does not. -/
theorem c5_email_validation
    (pe : Bool) (tid : Int)
    (ykCreate : Except String (String × String))
    (row : Option UserRow) (text : String) :
    (emailMatch (pyStrip text) = true →
      (on_text_for_email pe tid ykCreate row true text).awaitingEmail = false ∧
      ∃ r', (on_text_for_email pe tid ykCreate row true text).row' = some r' ∧
            r'.customer_email = some (pyStrip text)) ∧
    (emailMatch (pyStrip text) = false →
      on_text_for_email pe tid ykCreate row true text =
        { reply := some emailRejectText, row' := row, awaitingEmail := true, gatewayCalls := 0 }) ∧
    emailMatch "a@b.co" = true ∧
    emailMatch "not-an-email" = false := by
  refine ⟨fun hm => ?_, fun hm => ?_, by decide, by decide⟩
  · cases pe with
    | false =>
      exact ⟨by simp [on_text_for_email, hm],
        upsertRow tid (db_set_customer_email (pyStrip text)) row,
        by simp [on_text_for_email, hm], rfl⟩
    | true =>
      cases ykCreate with
      | error ex =>
        exact ⟨by simp [on_text_for_email, hm],
          upsertRow tid (db_set_customer_email (pyStrip text)) row,
          by simp [on_text_for_email, hm], rfl⟩
      | ok pu =>
        obtain ⟨pid, url⟩ := pu
        exact ⟨by simp [on_text_for_email, hm],
          upsertRow tid (db_set_last_payment pid)
            (some (upsertRow tid (db_set_customer_email (pyStrip text)) row)),
          by simp [on_text_for_email, hm], rfl⟩
  · simp [on_text_for_email, hm]

/-- C5 witness: the two concrete texts of the claim. -/
theorem c5_email_validation_witness :
    emailMatch (pyStrip "a@b.co") = true ∧
    ((on_text_for_email true 4 (.ok ("p", "u")) (some { telegram_id := 4 }) true "a@b.co").awaitingEmail = false ∧
     ∃ r', (on_text_for_email true 4 (.ok ("p", "u")) (some { telegram_id := 4 }) true "a@b.co").row' = some r' ∧
           r'.customer_email = some (pyStrip "a@b.co")) ∧
    emailMatch (pyStrip "not-an-email") = false ∧
    on_text_for_email true 4 (.ok ("p", "u")) (some { telegram_id := 4 }) true "not-an-email" =
      { reply := some emailRejectText, row' := some { telegram_id := 4 },
        awaitingEmail := true, gatewayCalls := 0 } :=
  ⟨by decide,
   (c5_email_validation true 4 (.ok ("p", "u")) (some { telegram_id := 4 }) "a@b.co").1 (by decide),
   by decide,
   (c5_email_validation true 4 (.ok ("p", "u")) (some { telegram_id := 4 }) "not-an-email").2.1 (by decide)⟩

/-- C6 counterexample: after a canceled check the stored record is NOT
equivalent to a fresh (never-paid-for) account: the handler writes
nothing, so the record keeps its last_payment_id, and a subsequent
"check" on it queries the gateway again and replies with the canceled
text, while the same press on a fresh record queries nothing and
replies that no payment exists. -/
theorem c6_canceled_counterexample :
    (on_check true 9 "t1" (.ok "canceled") (.ok "L") (some { telegram_id := 9, username := some "u", started_at := some "s", customer_email := some "u@x.co", last_payment_id := some "pc" })).row' = some { telegram_id := 9, username := some "u", started_at := some "s", customer_email := some "u@x.co", last_payment_id := some "pc" } ∧
    (on_check true 9 "t2" (.ok "canceled") (.ok "L") (some { telegram_id := 9, username := some "u", started_at := some "s", customer_email := some "u@x.co", last_payment_id := some "pc" })).gatewayCalls = 1 ∧
    (on_check true 9 "t2" (.ok "canceled") (.ok "L") (some { telegram_id := 9, username := some "u", started_at := some "s" })).gatewayCalls = 0 ∧
    (on_check true 9 "t2" (.ok "canceled") (.ok "L") (some { telegram_id := 9, username := some "u", started_at := some "s", customer_email := some "u@x.co", last_payment_id := some "pc" })).reply ≠
      (on_check true 9 "t2" (.ok "canceled") (.ok "L") (some { telegram_id := 9, username := some "u", started_at := some "s" })).reply :=
  ⟨by decide, by decide, by decide, by decide⟩

/-- C6 (amended): a canceled status performs no record write — the row
(in particular paid = false) is returned exactly as read, with the
canceled reply and no invite creation — so payment can be re-initiated:
a subsequent "pay" press on that row goes to the gateway, stores the
new payment id and shows the payment instructions. The record is not
reset, so it stays distinguishable from a fresh account. -/
theorem c6_canceled_keeps_row_amended
    (tid : Int) (now : String)
    (invite : Except String String) (pid2 url : String)
    (r : UserRow) (awaiting : Bool)
    (hnp : r.paid = false)
    (hpid : truthy r.last_payment_id = true)
    (hemail : truthy r.customer_email = true) :
    (on_check true tid now (.ok "canceled") invite (some r)).row' = some r ∧
    (on_check true tid now (.ok "canceled") invite (some r)).reply = checkCanceledText ∧
    (on_check true tid now (.ok "canceled") invite (some r)).inviteCalls = 0 ∧
    (on_pay true tid (.ok (pid2, url)) (some r) awaiting).gatewayCalls = 1 ∧
    (on_pay true tid (.ok (pid2, url)) (some r) awaiting).row' =
      some (db_set_last_payment pid2 r) ∧
    (on_pay true tid (.ok (pid2, url)) (some r) awaiting).reply = payCreatedText := by
  simp [on_check, on_pay, hnp, hpid, hemail, upsertRow]

/-- C6 witness: a concrete canceled-payment record. -/
theorem c6_canceled_keeps_row_amended_witness :
    ({ telegram_id := 9, customer_email := some "u@x.co", last_payment_id := some "pc" : UserRow }).paid = false ∧
    truthy ({ telegram_id := 9, customer_email := some "u@x.co", last_payment_id := some "pc" : UserRow }).last_payment_id = true ∧
    truthy ({ telegram_id := 9, customer_email := some "u@x.co", last_payment_id := some "pc" : UserRow }).customer_email = true ∧
    ((on_check true 9 "t1" (.ok "canceled") (.ok "L") (some { telegram_id := 9, customer_email := some "u@x.co", last_payment_id := some "pc" })).row' = some { telegram_id := 9, customer_email := some "u@x.co", last_payment_id := some "pc" } ∧
     (on_check true 9 "t1" (.ok "canceled") (.ok "L") (some { telegram_id := 9, customer_email := some "u@x.co", last_payment_id := some "pc" })).reply = checkCanceledText ∧
     (on_check true 9 "t1" (.ok "canceled") (.ok "L") (some { telegram_id := 9, customer_email := some "u@x.co", last_payment_id := some "pc" })).inviteCalls = 0 ∧
     (on_pay true 9 (.ok ("pnew", "unew")) (some { telegram_id := 9, customer_email := some "u@x.co", last_payment_id := some "pc" }) false).gatewayCalls = 1 ∧
     (on_pay true 9 (.ok ("pnew", "unew")) (some { telegram_id := 9, customer_email := some "u@x.co", last_payment_id := some "pc" }) false).row' = some (db_set_last_payment "pnew" { telegram_id := 9, customer_email := some "u@x.co", last_payment_id := some "pc" }) ∧
     (on_pay true 9 (.ok ("pnew", "unew")) (some { telegram_id := 9, customer_email := some "u@x.co", last_payment_id := some "pc" }) false).reply = payCreatedText) :=
  ⟨by decide, by decide, by decide,
   c6_canceled_keeps_row_amended 9 "t1" (.ok "L") "pnew" "unew"
     { telegram_id := 9, customer_email := some "u@x.co", last_payment_id := some "pc" }
     false (by decide) (by decide) (by decide)⟩

/-- C7: for an admin with a stored non-empty broadcast text, the send
loop attempts each recipient of the audience snapshot exactly once in
order, failures are counted without aborting, the summary counters
satisfy total = snapshot length and sent + failed = total, and an
empty audience gives total = sent = failed = 0. -/
theorem c7_broadcast_loop_counts
    (adminIds : List Int) (uid : Int) (sess : BcastSession)
    (paidIds unpaidIds : List Int) (send : Int → Bool) (t : String)
    (hadmin : is_admin adminIds uid = true)
    (htext : sess.bcastText = some t) (hne : t.isEmpty = false) :
    (on_broadcast_send adminIds uid sess paidIds unpaidIds send).attempted =
      (if sess.bcastPaid.getD false then paidIds else unpaidIds) ∧
    (on_broadcast_send adminIds uid sess paidIds unpaidIds send).total =
      (if sess.bcastPaid.getD false then paidIds else unpaidIds).length ∧
    (on_broadcast_send adminIds uid sess paidIds unpaidIds send).sent =
      (if sess.bcastPaid.getD false then paidIds else unpaidIds).countP (fun u => send u) ∧
    (on_broadcast_send adminIds uid sess paidIds unpaidIds send).failed =
      (if sess.bcastPaid.getD false then paidIds else unpaidIds).countP (fun u => !send u) ∧
    (on_broadcast_send adminIds uid sess paidIds unpaidIds send).sent +
      (on_broadcast_send adminIds uid sess paidIds unpaidIds send).failed =
      (on_broadcast_send adminIds uid sess paidIds unpaidIds send).total ∧
    (on_broadcast_send adminIds uid sess paidIds unpaidIds send).nextState = none ∧
    ((if sess.bcastPaid.getD false then paidIds else unpaidIds) = [] →
      (on_broadcast_send adminIds uid sess paidIds unpaidIds send).total = 0 ∧
      (on_broadcast_send adminIds uid sess paidIds unpaidIds send).sent = 0 ∧
      (on_broadcast_send adminIds uid sess paidIds unpaidIds send).failed = 0) := by
  have key : on_broadcast_send adminIds uid sess paidIds unpaidIds send =
      { reply := some (bcastSummaryText
          (if sess.bcastPaid.getD false then paidIds else unpaidIds).length
          ((if sess.bcastPaid.getD false then paidIds else unpaidIds).countP (fun u => send u))
          ((if sess.bcastPaid.getD false then paidIds else unpaidIds).countP (fun u => !send u))),
        total := (if sess.bcastPaid.getD false then paidIds else unpaidIds).length,
        sent := (if sess.bcastPaid.getD false then paidIds else unpaidIds).countP (fun u => send u),
        failed := (if sess.bcastPaid.getD false then paidIds else unpaidIds).countP (fun u => !send u),
        attempted := (if sess.bcastPaid.getD false then paidIds else unpaidIds),
        nextState := none, session := {} } := by
    simp [on_broadcast_send, hadmin, htext, hne, bcastLoop_eq]
  rw [key]
  refine ⟨rfl, rfl, rfl, rfl, ?_, rfl, ?_⟩
  · exact countP_add_countP_not (fun u => send u)
      (if sess.bcastPaid.getD false then paidIds else unpaidIds)
  · intro hids
    simp [hids]

/-- C7 witness: audience [5, 6, 7] with one failing recipient. -/
theorem c7_broadcast_loop_counts_witness :
    is_admin [1] 1 = true ∧
    ({ bcastPaid := some false, bcastText := some "hi" : BcastSession }).bcastText = some "hi" ∧
    ("hi" : String).isEmpty = false ∧
    ((on_broadcast_send [1] 1 { bcastPaid := some false, bcastText := some "hi" } [] [5, 6, 7] (fun u => u != 6)).attempted = (if ({ bcastPaid := some false, bcastText := some "hi" : BcastSession }).bcastPaid.getD false then ([] : List Int) else [5, 6, 7]) ∧
     (on_broadcast_send [1] 1 { bcastPaid := some false, bcastText := some "hi" } [] [5, 6, 7] (fun u => u != 6)).total = (if ({ bcastPaid := some false, bcastText := some "hi" : BcastSession }).bcastPaid.getD false then ([] : List Int) else [5, 6, 7]).length ∧
     (on_broadcast_send [1] 1 { bcastPaid := some false, bcastText := some "hi" } [] [5, 6, 7] (fun u => u != 6)).sent = (if ({ bcastPaid := some false, bcastText := some "hi" : BcastSession }).bcastPaid.getD false then ([] : List Int) else [5, 6, 7]).countP (fun u => (fun v => v != 6) u) ∧
     (on_broadcast_send [1] 1 { bcastPaid := some false, bcastText := some "hi" } [] [5, 6, 7] (fun u => u != 6)).failed = (if ({ bcastPaid := some false, bcastText := some "hi" : BcastSession }).bcastPaid.getD false then ([] : List Int) else [5, 6, 7]).countP (fun u => !(fun v => v != 6) u) ∧
     (on_broadcast_send [1] 1 { bcastPaid := some false, bcastText := some "hi" } [] [5, 6, 7] (fun u => u != 6)).sent + (on_broadcast_send [1] 1 { bcastPaid := some false, bcastText := some "hi" } [] [5, 6, 7] (fun u => u != 6)).failed = (on_broadcast_send [1] 1 { bcastPaid := some false, bcastText := some "hi" } [] [5, 6, 7] (fun u => u != 6)).total ∧
     (on_broadcast_send [1] 1 { bcastPaid := some false, bcastText := some "hi" } [] [5, 6, 7] (fun u => u != 6)).nextState = none ∧
     ((if ({ bcastPaid := some false, bcastText := some "hi" : BcastSession }).bcastPaid.getD false then ([] : List Int) else [5, 6, 7]) = [] →
       (on_broadcast_send [1] 1 { bcastPaid := some false, bcastText := some "hi" } [] [5, 6, 7] (fun u => u != 6)).total = 0 ∧
       (on_broadcast_send [1] 1 { bcastPaid := some false, bcastText := some "hi" } [] [5, 6, 7] (fun u => u != 6)).sent = 0 ∧
       (on_broadcast_send [1] 1 { bcastPaid := some false, bcastText := some "hi" } [] [5, 6, 7] (fun u => u != 6)).failed = 0)) :=
  ⟨by decide, rfl, by decide,
   c7_broadcast_loop_counts [1] 1 { bcastPaid := some false, bcastText := some "hi" }
     [] [5, 6, 7] (fun u => u != 6) "hi" (by decide) rfl (by decide)⟩

/-- C8 counterexample: a non-admin pressing the audience-choice step is
terminated (END) but receives no access-denied notice — no reply at
all — contradicting the claim that every step shows the notice. -/
theorem c8_nonadmin_counterexample :
    (on_broadcast_choose_paid [1] 2 {}).nextState = none ∧
    (on_broadcast_choose_paid [1] 2 {}).reply = none ∧
    (on_broadcast_choose_paid [1] 2 {}).reply ≠ some accessDeniedText :=
  ⟨by decide, by decide, by decide⟩

/-- C8 (amended): every broadcast-flow step invoked by a non-admin
terminates the conversation into the idle state (END), but only the
menu entry step shows the access-denied notice; the later steps
(audience choice, text entry, send) end silently with no reply. -/
theorem c8_nonadmin_terminated_amended
    (adminIds : List Int) (uid : Int) (sess : BcastSession) (text : String)
    (paidIds unpaidIds : List Int) (send : Int → Bool)
    (h : is_admin adminIds uid = false) :
    (on_admin_broadcast_menu adminIds uid sess).nextState = none ∧
    (on_admin_broadcast_menu adminIds uid sess).reply = some accessDeniedText ∧
    (on_broadcast_choose_paid adminIds uid sess).nextState = none ∧
    (on_broadcast_choose_paid adminIds uid sess).reply = none ∧
    (on_broadcast_choose_unpaid adminIds uid sess).nextState = none ∧
    (on_broadcast_choose_unpaid adminIds uid sess).reply = none ∧
    (on_broadcast_text adminIds uid sess text).nextState = none ∧
    (on_broadcast_text adminIds uid sess text).reply = none ∧
    (on_broadcast_send adminIds uid sess paidIds unpaidIds send).nextState = none ∧
    (on_broadcast_send adminIds uid sess paidIds unpaidIds send).reply = none := by
  simp [on_admin_broadcast_menu, on_broadcast_choose_paid, on_broadcast_choose_unpaid,
        on_broadcast_text, on_broadcast_send, h]

/-- C8 witness: user 2 against the admin set containing only 1. -/
theorem c8_nonadmin_terminated_amended_witness :
    is_admin [1] 2 = false ∧
    ((on_admin_broadcast_menu [1] 2 {}).nextState = none ∧
     (on_admin_broadcast_menu [1] 2 {}).reply = some accessDeniedText ∧
     (on_broadcast_choose_paid [1] 2 {}).nextState = none ∧
     (on_broadcast_choose_paid [1] 2 {}).reply = none ∧
     (on_broadcast_choose_unpaid [1] 2 {}).nextState = none ∧
     (on_broadcast_choose_unpaid [1] 2 {}).reply = none ∧
     (on_broadcast_text [1] 2 {} "msg").nextState = none ∧
     (on_broadcast_text [1] 2 {} "msg").reply = none ∧
     (on_broadcast_send [1] 2 {} [] [3] (fun _ => true)).nextState = none ∧
     (on_broadcast_send [1] 2 {} [] [3] (fun _ => true)).reply = none) :=
  ⟨by decide,
   c8_nonadmin_terminated_amended [1] 2 {} "msg" [] [3] (fun _ => true) (by decide)⟩

/-- C9 counterexample: the webhook endpoint parses the body with
`request.json()` outside any try block; a payload that is not valid
JSON raises, the exception escapes the endpoint and the framework
answers 500, not 200. -/
theorem c9_webhook_counterexample :
    httpStatus (@telegram_webhook Unit Unit (.error "json.decoder.JSONDecodeError") (fun _ => .ok ()) (fun _ => .ok ())) = 500 ∧
    httpStatus (@telegram_webhook Unit Unit (.error "json.decoder.JSONDecodeError") (fun _ => .ok ()) (fun _ => .ok ())) ≠ 200 :=
  ⟨rfl, by decide⟩

/-- C9 (amended): the endpoint answers 200 exactly on the path where
body parsing, update deserialization and dispatch all complete without
raising; a raising step escapes uncaught and surfaces as an HTTP error
status instead. -/
theorem c9_webhook_200_amended {J U : Type} (requestJson : Except String J)
    (deJson : J → Except String U) (processUpdate : U → Except String Unit)
    (d : J) (u : U)
    (h1 : requestJson = .ok d) (h2 : deJson d = .ok u) (h3 : processUpdate u = .ok ()) :
    httpStatus (telegram_webhook requestJson deJson processUpdate) = 200 := by
  simp [telegram_webhook, h1, h2, h3, httpStatus]

/-- C9 witness: a fully successful pipeline. -/
theorem c9_webhook_200_amended_witness :
    (Except.ok 0 : Except String Nat) = .ok 0 ∧
    httpStatus (@telegram_webhook Nat Nat (.ok 0) (fun _ => .ok 1) (fun _ => .ok ())) = 200 :=
  ⟨rfl, c9_webhook_200_amended (.ok 0) (fun _ => .ok 1) (fun _ => .ok ()) 0 1 rfl rfl rfl⟩

/-- C10: when the filtered unpaid query raises, the fallback selects
every row of the table, so any user id present in the table — paid
ones included — lands in the returned audience; and in all cases the
returned list is exactly the parsable ids of the chosen result set,
with unparsable ids silently skipped. -/
theorem c10_unpaid_fallback
    (filteredQuery : Except String QueryRes) (allQuery : QueryRes)
    (ex : String) (n : Int) :
    (filteredQuery = .error ex →
      db_list_unpaid_user_ids filteredQuery allQuery =
        (allQuery.data.getD []).filterMap pyIntOfVal ∧
      (DbVal.vInt n ∈ allQuery.data.getD [] →
        n ∈ db_list_unpaid_user_ids filteredQuery allQuery)) ∧
    (∀ m ∈ db_list_unpaid_user_ids filteredQuery allQuery,
      ∃ v, v ∈ (match filteredQuery with
                | .ok q => q
                | .error _ => allQuery).data.getD [] ∧
        pyIntOfVal v = some m) := by
  constructor
  · intro hf
    subst hf
    refine ⟨by simp [db_list_unpaid_user_ids, collectIds_eq], fun hmem => ?_⟩
    simp only [db_list_unpaid_user_ids, collectIds_eq, List.mem_filterMap]
    exact ⟨.vInt n, hmem, rfl⟩
  · intro m hm
    simp only [db_list_unpaid_user_ids, collectIds_eq, List.mem_filterMap] at hm
    exact hm

/-- C10 witness: a failing filtered query over a table holding parsable
and unparsable ids. -/
theorem c10_unpaid_fallback_witness :
    DbVal.vInt 3 ∈ ({ data := some [DbVal.vInt 3, DbVal.vStr "x", DbVal.vStr "7", DbVal.vNull, DbVal.vInt 5] : QueryRes }).data.getD [] ∧
    3 ∈ db_list_unpaid_user_ids (.error "boom") { data := some [DbVal.vInt 3, DbVal.vStr "x", DbVal.vStr "7", DbVal.vNull, DbVal.vInt 5] } ∧
    db_list_unpaid_user_ids (.error "boom") { data := some [DbVal.vInt 3, DbVal.vStr "x", DbVal.vStr "7", DbVal.vNull, DbVal.vInt 5] } = [3, 7, 5] :=
  ⟨by decide,
   ((c10_unpaid_fallback (.error "boom") { data := some [DbVal.vInt 3, DbVal.vStr "x", DbVal.vStr "7", DbVal.vNull, DbVal.vInt 5] } "boom" 3).1 rfl).2 (by decide),
   by decide⟩
